import Mathlib

/-!
Verification development for the kadiryunusdemir.dev static-blog repository.

The repository consists of (a) an Astro build configuration file
(`src/astro.config.mjs`) and (b) seven Markdown content documents, each a
YAML-like front-matter block delimited by `---` lines followed by a Markdown
body (`src/src/pages/posts/post-1.md` … `post-6.md`, plus one document whose
repository file name is not recorded in the corpus).  One document embeds a
JavaScript `createTableFromJson` utility inside a fenced code block; that
function is modelled separately below.

Front-matter blocks are embedded verbatim, line by line.  Markdown bodies are
large prose/code passages that none of the verified properties inspect beyond
their presence, so each body is represented by its line count (the dataset's
trailing packaging marker on the final line is disregarded).
-/

set_option maxRecDepth 16384

namespace Blog

/-- Whitespace characters recognised by the line-level front-matter parser
(and by the JavaScript `trim` model further below). -/
def isWsChar (c : Char) : Bool :=
  c = ' ' || c = '\t' || c = '\n' || c = '\r' || c = '\x0b' || c = '\x0c'

/-- Drop leading and trailing whitespace from a character list. -/
def trimChars (cs : List Char) : List Char :=
  ((cs.dropWhile isWsChar).reverse.dropWhile isWsChar).reverse

/-- Trim a string (model of `String.prototype.trim` / YAML value trimming). -/
def trimStr (s : String) : String := String.mk (trimChars s.data)

/-- A line is blank when it consists only of whitespace. -/
def isBlank (s : String) : Bool := s.data.all isWsChar

/-- Split a character list at the first occurrence of `sep`; `none` when
`sep` does not occur. -/
def splitAtChar (sep : Char) : List Char → Option (List Char × List Char)
  | [] => none
  | c :: cs =>
    if c = sep then some ([], cs)
    else (splitAtChar sep cs).map (fun p => (c :: p.1, p.2))

/-- Split a front-matter line `key: value` at its first colon, trimming both
sides; `none` when the line has no colon. -/
def splitKV (line : String) : Option (String × String) :=
  (splitAtChar ':' line.data).map
    (fun p => (trimStr (String.mk p.1), trimStr (String.mk p.2)))

/-- Number of unmatched opening brackets contributed by a line: occurrences
of `[` minus occurrences of `]`.  Used to recognise multi-line flow-sequence
values such as the corpus's multi-line `tags:` lists. -/
def bracketDelta (s : String) : Int :=
  ((s.data.filter (fun c => c = '[')).length : Int)
    - ((s.data.filter (fun c => c = ']')).length : Int)

/-- Absorb continuation lines into a value while its brackets are unbalanced,
joining with a single space.  `fuel` bounds the recursion by the number of
remaining lines. -/
def absorbValue (fuel : Nat) (d : Int) (v : String) (ls : List String) :
    Option (String × List String) :=
  if d ≤ 0 then some (v, ls)
  else
    match fuel, ls with
    | 0, _ => none
    | _, [] => none
    | fuel' + 1, l :: rest =>
      absorbValue fuel' (d + bracketDelta l) (v ++ " " ++ trimStr l) rest

/-- Parse the interior of a front-matter block into an ordered key/value
list: blank lines are skipped, every other line must start a `key: value`
field, and a value whose brackets are unbalanced absorbs following lines. -/
def parseFields (fuel : Nat) (ls : List String) : Option (List (String × String)) :=
  match fuel, ls with
  | _, [] => some []
  | 0, _ => none
  | fuel' + 1, l :: rest =>
    if isBlank l then parseFields fuel' rest
    else
      match splitKV l with
      | none => none
      | some (k, v) =>
        match absorbValue fuel' (bracketDelta v) v rest with
        | none => none
        | some (v', rest') =>
          (parseFields fuel' rest').map (fun fs => (k, v') :: fs)

/-- Parse a whole front-matter block: an opening `---` line, the fields, and
a closing `---` line (the block's last line). -/
def parseFrontMatter (ls : List String) : Option (List (String × String)) :=
  match ls with
  | [] => none
  | first :: rest =>
    if first = "---" then
      match rest.getLast? with
      | some lastLine =>
        if lastLine = "---" then parseFields (rest.length + 1) rest.dropLast
        else none
      | none => none
    else none

/-- Serialise a parsed field list back to front-matter syntax, one
`key: value` line per field between `---` delimiters.
Modelled from the spec: the repository itself contains no serialisation
code; the spec's round-trip property ("re-serializing parsed front matter
back to front-matter syntax") is what this function realises. -/
def serializeFrontMatter (fs : List (String × String)) : List String :=
  "---" :: fs.map (fun p => p.1 ++ ": " ++ p.2) ++ ["---"]

/-- Look up the first field with the given key. -/
def getField (fs : List (String × String)) (k : String) : Option String :=
  (fs.find? (fun p => p.1 = k)).map (fun p => p.2)

/-- The single-quote character used by the corpus's front-matter strings. -/
def sq : Char := Char.ofNat 39

/-- The single-quote character as a one-character string. -/
def sqs : String := String.mk [sq]

/-- Wrap a string in single quotes, as the corpus's `title`, `description`
and `author` values are written. -/
def quoted (s : String) : String := sqs ++ s ++ sqs

/-- Strip one layer of matching single or double quotes from a scalar
front-matter value, when present. -/
def unquote (s : String) : String :=
  match s.data with
  | [] => s
  | c :: rest =>
    if (c = sq || c = '"') && rest.getLast? = some c then String.mk rest.dropLast
    else s

/-- Split a character list on every comma. -/
def splitCommas : List Char → List (List Char)
  | [] => [[]]
  | c :: cs =>
    let r := splitCommas cs
    if c = ',' then [] :: r
    else
      match r with
      | h :: t => (c :: h) :: t
      | [] => [[c]]

/-- Parse a front-matter flow-sequence value `[ "a", "b", … ]` into its list
of unquoted entries; `none` when the value is not bracketed. -/
def parseTags (v : String) : Option (List String) :=
  match (trimStr v).data with
  | c :: rest =>
    if c = '[' && rest.getLast? = some ']' then
      some ((splitCommas rest.dropLast).map
        (fun p => unquote (trimStr (String.mk p))))
    else none
  | [] => none

/-! ## The Astro build configuration (`src/astro.config.mjs`)

The file exports `defineConfig({ markdown: { shikiConfig: { … } } })`.  The
only line inside the `shikiConfig` object literal — `wrap: true,` — is
commented out in the source, so the object defines no properties; only the
comment above it ("Enable word wrap to prevent horizontal scrolling")
mentions the word-wrap toggle.  Option objects are embedded as ordered
key/value lists. -/

/-- The properties defined by the `shikiConfig` object literal: none
(`wrap: true` is present only as a comment). -/
def shikiConfigOptions : List (String × Bool) := []

/-- The properties of the `markdown` configuration section: exactly the
`shikiConfig` sub-object. -/
def markdownConfig : List (String × List (String × Bool)) :=
  [("shikiConfig", shikiConfigOptions)]

/-- The top-level sections passed to `defineConfig`. -/
def astroConfigSections : List String := ["markdown"]

/-! ## The content corpus -/

/-- A content document: its file name under `src/pages/posts/` when
recorded (`none` for the document whose name the corpus does not preserve),
the repository directory containing it, its front-matter block verbatim
(both `---` delimiter lines included), and the number of Markdown body lines
that follow the closing delimiter. -/
structure RawDoc where
  fileName : Option String
  dir : List String
  fmLines : List String
  bodyLineCount : Nat
  deriving DecidableEq, Repr

/-- `src/src/pages/posts/post-1.md`: front matter verbatim; the body is 28
lines of Markdown. -/
def post1 : RawDoc :=
  { fileName := some "post-1.md"
    dir := ["src", "pages", "posts"]
    fmLines :=
      [ "---"
      , "layout: ../../layouts/MarkdownPostLayout.astro"
      , "title: " ++ quoted "Exception Filters in ASP.NET Core"
      , "pubDate: 2023-09-18"
      , "description: " ++ quoted "Learn how to use exception filters with dependency injection for effective error handling in ASP.NET Core."
      , "author: " ++ quoted "Kadir Yunus Demir"
      , "tags: [\"asp.net-core\", \"asp.net6\", \".net6\"]"
      , "---" ]
    bodyLineCount := 28 }

/-- `src/src/pages/posts/post-2.md`: front matter verbatim; the body is 72
lines of Markdown. -/
def post2 : RawDoc :=
  { fileName := some "post-2.md"
    dir := ["src", "pages", "posts"]
    fmLines :=
      [ "---"
      , "layout: ../../layouts/MarkdownPostLayout.astro"
      , "title: " ++ quoted "URL Extension Methods in ASP.NET Core"
      , "pubDate: 2023-09-18"
      , "description: " ++ quoted "Learn how to use extension methods for compile-time checked urls."
      , "author: " ++ quoted "Kadir Yunus Demir"
      , "tags: [\"asp.net-core\", \"asp.net6\", \".net6\"]"
      , "---" ]
    bodyLineCount := 72 }

/-- `src/src/pages/posts/post-3.md`: front matter verbatim — its `tags`
value spans lines 7–37, followed by a blank line before the closing
delimiter; the body is 161 lines of Markdown. -/
def post3 : RawDoc :=
  { fileName := some "post-3.md"
    dir := ["src", "pages", "posts"]
    fmLines :=
      [ "---"
      , "layout: ../../layouts/MarkdownPostLayout.astro"
      , "title: " ++ quoted "Dynamic SQL Query for Retrieving SQL Rows in ASP.NET Core"
      , "pubDate: 2023-09-24"
      , "description: " ++ quoted "Learn how to retrieve generic objects from SQL Server using table names and object IDs in ASP.NET Core."
      , "author: " ++ quoted "Kadir Yunus Demir"
      , "tags: ["
      , "    \"ASP.NET Core\","
      , "    \"ASP.NET-Core\","
      , "    \"ASP.NET 6\","
      , "    \".NET 6\","
      , "    \"Entity Framework Core 7\","
      , "    \"Entity Framework Core 6\","
      , "    \"EF CORE 7\","
      , "    \"EF CORE 6\","
      , "    \"SQL Server\","
      , "    \"MSSQL Server\","
      , "    \"SqlQueryRaw\","
      , "    \"FromSqlInterpolated\","
      , "    \"ExecuteSqlRaw\","
      , "    \"FOR JSON\","
      , "    \"Dynamic SQL Queries\","
      , "    \"Database Query Execution\","
      , "    \"Database Query Interpolation\","
      , "    \"SQL Query Execution\","
      , "    \"Database Query Optimization\","
      , "    \"SQL Server Optimization\","
      , "    \"Entity Framework Core\","
      , "    \"JSON Data Retrieval\","
      , "    \"SQL Injection Prevention\","
      , "    \"Stored Procedures\","
      , "    \"Database Table Names\","
      , "    \"Object IDs\","
      , "    \".NET Development\","
      , "    \"Database Security\","
      , "    \"JSON Output\""
      , "]"
      , ""
      , "---" ]
    bodyLineCount := 161 }

/-- `src/src/pages/posts/post-4.md`: front matter verbatim; the body is 67
lines of Markdown. -/
def post4 : RawDoc :=
  { fileName := some "post-4.md"
    dir := ["src", "pages", "posts"]
    fmLines :=
      [ "---"
      , "layout: ../../layouts/MarkdownPostLayout.astro"
      , "title: " ++ quoted "Creating a Whitespace Trimmer Model Binder in ASP.NET Core"
      , "pubDate: 2023-09-24"
      , "description: " ++ quoted "Learn how to implement a custom model binder in ASP.NET Core to trim whitespace from user input."
      , "author: " ++ quoted "Kadir Yunus Demir"
      , "tags: [\"asp.net-core\", \"asp.net6\", \".net6\"]"
      , "---" ]
    bodyLineCount := 67 }

/-- `src/src/pages/posts/post-5.md`: front matter verbatim with a
multi-line `tags` value; the body is 74 lines of Markdown. -/
def post5 : RawDoc :=
  { fileName := some "post-5.md"
    dir := ["src", "pages", "posts"]
    fmLines :=
      [ "---"
      , "layout: ../../layouts/MarkdownPostLayout.astro"
      , "title: " ++ quoted "Cascaded Dropdown List Operations in ASP.NET Core"
      , "pubDate: 2023-11-17"
      , "description: " ++ quoted "Explore techniques for implementing cascaded dropdown lists in ASP.NET Core applications."
      , "author: " ++ quoted "Kadir Yunus Demir"
      , "tags: ["
      , "    \"ASP.NET Core\","
      , "    \"ASP.NET 6\","
      , "    \".NET 6\","
      , "    \"Dropdown Lists\","
      , "    \"Cascaded Dropdown Lists\","
      , "    \"Dependent Dropdown Lists\","
      , "    \"Entity Framework Core\","
      , "    \"JavaScript\","
      , "    \"C#\","
      , "    \"Web Development\","
      , "    \"Select2\","
      , "    \"jQuery\""
      , "]"
      , "---" ]
    bodyLineCount := 74 }

/-- `src/src/pages/posts/post-6.md`: front matter verbatim with a
multi-line `tags` value; the body is 68 lines of Markdown. -/
def post6 : RawDoc :=
  { fileName := some "post-6.md"
    dir := ["src", "pages", "posts"]
    fmLines :=
      [ "---"
      , "layout: ../../layouts/MarkdownPostLayout.astro"
      , "title: " ++ quoted "Implementing a Confirmation-Based Action Handler in JavaScript"
      , "pubDate: 2024-06-07"
      , "description: " ++ quoted "Learn how to create a versatile JavaScript function that manages user-confirmed actions with AJAX requests."
      , "author: " ++ quoted "Kadir Yunus Demir"
      , "tags: ["
      , "    \"JavaScript\","
      , "    \"AJAX\","
      , "    \"Web Development\","
      , "    \"User Experience\","
      , "    \"Confirmation Dialog\","
      , "    \"Front-End Development\","
      , "    \"jQuery\","
      , "    \"toastr\","
      , "    \"Error Handling\","
      , "    \"Code Tutorial\""
      , "]"
      , "---" ]
    bodyLineCount := 68 }

/-- `src/unnamed/part_000`, the nested-HTML-table article: front matter
verbatim; the body is 217 lines of Markdown (embedding the
`createTableFromJson` JavaScript utility modelled further below).  Its
repository file name is not recorded in the corpus (`fileName := none`).
Its directory is modelled from the spec: the spec's content-file format
treats all documents uniformly as content files rendered through the shared
layout, and this document's `../../layouts/…` layout path places it beside
the other posts, so `dir` is the posts directory. -/
def nestedTablePost : RawDoc :=
  { fileName := none
    dir := ["src", "pages", "posts"]
    fmLines :=
      [ "---"
      , "layout: ../../layouts/MarkdownPostLayout.astro"
      , "title: " ++ quoted "Creating a Nested HTML Table from JSON Data with JavaScript"
      , "pubDate: 2024-06-07"
      , "description: " ++ quoted "Learn how to create a dynamic, nested HTML table from JSON data using JavaScript and jQuery."
      , "author: " ++ quoted "Kadir Yunus Demir"
      , "tags: ["
      , "    \"JavaScript\","
      , "    \"JSON\","
      , "    \"Web Development\","
      , "    \"User Experience\","
      , "    \"HTML Tables\","
      , "    \"Nested HTML Tables\","
      , "    \"Dynamic HTML Tables\","
      , "    \"Front-End Development\","
      , "    \"jQuery\","
      , "    \"toastr\","
      , "    \"AJAX\","
      , "    \"Data Visualization\","
      , "    \"Code Tutorial\""
      , "]"
      , "---" ]
    bodyLineCount := 217 }

/-- The whole content corpus, in file order. -/
def corpus : List RawDoc :=
  [post1, post2, post3, post4, post5, post6, nestedTablePost]

/-! ## Derived views of a document -/

/-- Split a character list on every occurrence of `sep`. -/
def splitOnSep (sep : Char) : List Char → List (List Char)
  | [] => [[]]
  | c :: cs =>
    let r := splitOnSep sep cs
    if c = sep then [] :: r
    else
      match r with
      | h :: t => (c :: h) :: t
      | [] => [[c]]

/-- Read a non-empty all-digit character list as a natural number. -/
def digitsToNat (cs : List Char) : Option Nat :=
  if cs ≠ [] && cs.all Char.isDigit then
    some (cs.foldl (fun n c => 10 * n + (c.toNat - 48)) 0)
  else none

/-- Parse a `YYYY-MM-DD` scalar into `(year, month, day)`. -/
def parseDate (s : String) : Option (Nat × Nat × Nat) :=
  match splitOnSep '-' s.data with
  | [ys, ms, ds] =>
    match digitsToNat ys, digitsToNat ms, digitsToNat ds with
    | some y, some m, some d => some (y, m, d)
    | _, _, _ => none
  | _ => none

/-- Gregorian leap-year rule. -/
def isLeapYear (y : Nat) : Bool :=
  (y % 4 = 0 && y % 100 ≠ 0) || y % 400 = 0

/-- Length of a month in the Gregorian calendar. -/
def daysInMonth (y m : Nat) : Nat :=
  if m = 2 then (if isLeapYear y then 29 else 28)
  else if m = 4 || m = 6 || m = 9 || m = 11 then 30
  else 31

/-- A `(year, month, day)` triple is a valid calendar date. -/
def isValidDate : Nat × Nat × Nat → Bool
  | (y, m, d) => 1 ≤ m && m ≤ 12 && 1 ≤ d && d ≤ daysInMonth y m

/-- Resolve the segments of a relative path against a directory:
`..` pops a directory (failing below the root), `.` and empty segments are
skipped, and any other segment is appended. -/
def resolveSegs : List String → List String → Option (List String)
  | acc, [] => some acc
  | acc, seg :: rest =>
    if seg = ".." then
      match acc with
      | [] => none
      | _ => resolveSegs acc.dropLast rest
    else if seg = "." || seg = "" then resolveSegs acc rest
    else resolveSegs (acc ++ [seg]) rest

/-- Resolve a `/`-separated relative path against a directory. -/
def resolveRel (dir : List String) (rel : String) : Option (List String) :=
  resolveSegs dir ((splitOnSep '/' rel.data).map String.mk)

/-- Modelled from the spec: the layout template consumed by every document
is "itself not included in the provided source"; per the spec's layout
contract each document names it by the relative path
`../../layouts/MarkdownPostLayout.astro`, which from the posts directory
resolves to `src/layouts/MarkdownPostLayout.astro`.  This list holds the
template files the repository provides. -/
def repoTemplates : List (List String) :=
  [["src", "layouts", "MarkdownPostLayout.astro"]]

/-- Lower-case an ASCII letter. -/
def lowerChar (c : Char) : Char :=
  if 'A' ≤ c && c ≤ 'Z' then Char.ofNat (c.toNat + 32) else c

/-- Lower-case every character of a string. -/
def lowerStr (s : String) : String := String.mk (s.data.map lowerChar)

/-- Tag normalisation for near-duplicate detection: lower-case, then
identify spaces with hyphens. -/
def normTag (s : String) : String :=
  String.mk ((s.data.map lowerChar).map (fun c => if c = ' ' then '-' else c))

/-- A document's parsed front-matter fields. -/
def docFields (d : RawDoc) : Option (List (String × String)) :=
  parseFrontMatter d.fmLines

/-- A document's raw value for one front-matter key. -/
def docField (d : RawDoc) (k : String) : Option String :=
  (docFields d).bind (fun fs => getField fs k)

/-- A document's title, with the surrounding quotes stripped. -/
def docTitle (d : RawDoc) : Option String := (docField d "title").map unquote

/-- A document's author, with the surrounding quotes stripped. -/
def docAuthor (d : RawDoc) : Option String := (docField d "author").map unquote

/-- A document's tag list (empty when absent or unparsable). -/
def tagsOf (d : RawDoc) : List String :=
  ((docField d "tags").bind parseTags).getD []

/-- Strip a trailing `.md` extension from a file name. -/
def stripMdExt (n : String) : String :=
  match n.data.reverse with
  | 'd' :: 'm' :: '.' :: rest => String.mk rest.reverse
  | _ => n

/-- The output path a page file renders to: its directory below
`src/pages` followed by the file name without its `.md` extension; `none`
when the file name is not recorded. -/
def outputPath (d : RawDoc) : Option (List String) :=
  d.fileName.map (fun n => d.dir.drop 2 ++ [stripMdExt n])

/-- The document's `pubDate` value parses as a date and that date is a
valid calendar date. -/
def docPubDateValid (d : RawDoc) : Bool :=
  match (docField d "pubDate").bind parseDate with
  | some ymd => isValidDate ymd
  | none => false

/-- The front-matter keys every Post carries. -/
def requiredKeys : List String :=
  ["layout", "title", "pubDate", "description", "author", "tags"]

/-! ## Claims about the configuration and the corpus -/

/-- Claim C1, as stated, is false: the `shikiConfig` object of the build
configuration does not define a word-wrap option — its recognised-option
list is empty, not the one-element list containing `wrap` (the line
`wrap: true` is commented out in `src/astro.config.mjs`). -/
theorem c1_counterexample : ¬ shikiConfigOptions.map Prod.fst = ["wrap"] := by
  decide

/-- Claim C1 (amended): the build configuration's `markdown` section
contains exactly the `shikiConfig` object, and that object defines no
options at all — the word-wrap toggle appears only as a commented-out
line. -/
theorem c1_shiki_defines_no_options :
    shikiConfigOptions = [] ∧
    markdownConfig.map Prod.fst = ["shikiConfig"] ∧
    astroConfigSections = ["markdown"] := by
  decide

/-- Claim C2, as stated, is false: the corpus contains no two distinct
documents with the same output path and no two distinct documents with the
same title (so no duplicate content at all, let alone with differing
bodies). -/
theorem c2_counterexample :
    ¬ ((∃ d1 ∈ corpus, ∃ d2 ∈ corpus,
          d1 ≠ d2 ∧ (outputPath d1).isSome = true ∧ outputPath d1 = outputPath d2) ∨
       (∃ d1 ∈ corpus, ∃ d2 ∈ corpus,
          d1 ≠ d2 ∧ (docTitle d1).isSome = true ∧ docTitle d1 = docTitle d2)) := by
  decide

/-- Claim C2 (amended): all seven documents carry pairwise-distinct titles,
and the six documents with recorded file names resolve to six
pairwise-distinct output paths, so the check that no two distinct posts
share an output path passes on this corpus. -/
theorem c2_titles_and_paths_distinct :
    (corpus.filterMap docTitle).length = 7 ∧
    (corpus.filterMap docTitle).Pairwise (fun a b => a ≠ b) ∧
    (corpus.filterMap outputPath).length = 6 ∧
    (corpus.filterMap outputPath).Pairwise (fun a b => a ≠ b) := by
  decide

/-- Claim C3: every document's front matter is a block delimited by `---`
lines that parses as key/value data containing all of the Post fields
(layout, title, pubDate, description, author, tags), followed by a
(non-empty) Markdown body. -/
theorem c3_front_matter_well_formed :
    ∀ d ∈ corpus,
      (docFields d).isSome = true ∧
      (∀ k ∈ requiredKeys, (docField d k).isSome = true) ∧
      d.fmLines.head? = some "---" ∧
      d.fmLines.getLast? = some "---" ∧
      0 < d.bodyLineCount := by
  decide

/-- Witness for C3 at the first document of the corpus. -/
theorem c3_witness :
    (docFields post1).isSome = true ∧
    (∀ k ∈ requiredKeys, (docField post1 k).isSome = true) ∧
    post1.fmLines.head? = some "---" ∧
    post1.fmLines.getLast? = some "---" ∧
    0 < post1.bodyLineCount :=
  c3_front_matter_well_formed post1 (by decide)

/-- Claim C4: every document's `layout` field names, by relative path, a
template that resolves to an existing template file of the repository
(`src/layouts/MarkdownPostLayout.astro`, modelled from the spec's layout
contract since the template itself is not included in the provided
source). -/
theorem c4_layout_resolves_to_template :
    ∀ d ∈ corpus,
      (docField d "layout").bind (resolveRel d.dir) =
        some ["src", "layouts", "MarkdownPostLayout.astro"] ∧
      ["src", "layouts", "MarkdownPostLayout.astro"] ∈ repoTemplates := by
  decide

/-- Witness for C4 at the first document of the corpus. -/
theorem c4_witness :
    (docField post1 "layout").bind (resolveRel post1.dir) =
      some ["src", "layouts", "MarkdownPostLayout.astro"] ∧
    ["src", "layouts", "MarkdownPostLayout.astro"] ∈ repoTemplates :=
  c4_layout_resolves_to_template post1 (by decide)

/-- Claim C5: every document's `pubDate` field is a valid calendar date. -/
theorem c5_pubdate_valid : ∀ d ∈ corpus, docPubDateValid d = true := by
  decide

/-- Witness for C5 at the first document of the corpus. -/
theorem c5_witness : docPubDateValid post1 = true :=
  c5_pubdate_valid post1 (by decide)

/-- Claim C6: for every document, re-serialising the parsed front matter
back to front-matter syntax and re-parsing yields the identical field set
(parse ∘ serialize ∘ parse = parse). -/
theorem c6_front_matter_round_trip :
    ∀ d ∈ corpus,
      (docFields d).isSome = true ∧
      (docFields d).bind (fun fs => parseFrontMatter (serializeFrontMatter fs)) =
        docFields d := by
  decide

/-- Witness for C6 at the first document of the corpus. -/
theorem c6_witness :
    (docFields post1).isSome = true ∧
    (docFields post1).bind (fun fs => parseFrontMatter (serializeFrontMatter fs)) =
      docFields post1 :=
  c6_front_matter_round_trip post1 (by decide)

/-- Claim C7: tags follow no controlled vocabulary — two distinct documents
carry the same nominal tag under duplicate casing (`asp.net-core` in
post-1 versus `ASP.NET-Core` in post-3), and the spec's example pair is
realised: a tag lower-casing to `asp.net core` and a tag lower-casing to
`asp.net-core` occur in distinct documents and coincide once spaces and
hyphens are identified. -/
theorem c7_duplicate_tag_casing :
    (∃ d1 ∈ corpus, ∃ d2 ∈ corpus, d1 ≠ d2 ∧
      ∃ t1 ∈ tagsOf d1, ∃ t2 ∈ tagsOf d2,
        t1 ≠ t2 ∧ lowerStr t1 = lowerStr t2) ∧
    (∃ d1 ∈ corpus, ∃ d2 ∈ corpus, d1 ≠ d2 ∧
      ∃ t1 ∈ tagsOf d1, ∃ t2 ∈ tagsOf d2,
        lowerStr t1 = "asp.net core" ∧ lowerStr t2 = "asp.net-core" ∧
        normTag t1 = normTag t2) := by
  constructor
  · exact ⟨post1, by simp [corpus], post3, by simp [corpus], by decide,
      "asp.net-core", by decide, "ASP.NET-Core", by decide, by decide, by decide⟩
  · exact ⟨post5, by simp [corpus], post1, by simp [corpus], by decide,
      "ASP.NET Core", by decide, "asp.net-core", by decide, by decide, by decide,
      by decide⟩

/-- Claim C8: every document references the same layout template path
`../../layouts/MarkdownPostLayout.astro` and the same author string
`Kadir Yunus Demir`. -/
theorem c8_shared_layout_and_author :
    ∀ d ∈ corpus,
      docField d "layout" = some "../../layouts/MarkdownPostLayout.astro" ∧
      docAuthor d = some "Kadir Yunus Demir" := by
  decide

/-- Witness for C8 at the last document of the corpus. -/
theorem c8_witness :
    docField nestedTablePost "layout" =
      some "../../layouts/MarkdownPostLayout.astro" ∧
    docAuthor nestedTablePost = some "Kadir Yunus Demir" :=
  c8_shared_layout_and_author nestedTablePost (by decide)

/-! ## The embedded `createTableFromJson` JavaScript utility

The nested-HTML-table article embeds a jQuery utility in a fenced code
block.  Its DOM effects are modelled structurally: a produced `<tr>` is
either a plain data row or a nested row wrapping a sub-table; the
surrounding container records whether the "Open All" button was added and
whether `divRef.html(…)` was ever called. -/

/-- A JavaScript value, as far as the utility inspects one: null,
undefined, booleans, numbers (modelled as integers — no verified property
touches fractional values), strings, arrays, and objects (an object is its
ordered list of enumerable properties). -/
inductive JSValue where
  | vnull
  | vundef
  | vbool (b : Bool)
  | vnum (n : Int)
  | vstr (s : String)
  | varr (elems : List JSValue)
  | vobj (entries : List (String × JSValue))
  deriving Repr

/-- The guard `obj[key] !== null && typeof obj[key] === "object"`: true
exactly for arrays and objects (JavaScript gives `typeof null` as
`"object"`, but the code excludes null explicitly). -/
def isNonNullObject : JSValue → Bool
  | .varr _ => true
  | .vobj _ => true
  | _ => false

/-- JavaScript falsiness over the modelled values: null, undefined,
`false`, `0` and the empty string are falsy. -/
def jsFalsy : JSValue → Bool
  | .vnull => true
  | .vundef => true
  | .vbool b => !b
  | .vnum n => n == 0
  | .vstr s => s == ""
  | _ => false

/-- One `<tr>` appended by `createNestedTables`: a plain row is a `<th>`
with the key and a `<td>` with the value; a nested row is a `<th>` with the
key and a `<td>` wrapping a sub-table, recording whether the sub-table
starts hidden, whether the row received the `clickable-row` class, and
whether a toggle handler was attached to the header. -/
inductive TableRow where
  | plain (key : String) (value : JSValue)
  | nested (key : String) (sub : List TableRow)
      (subHidden : Bool) (clickableRow : Bool) (toggleOnHeader : Bool)
  deriving Repr

/-- A row is a nested-sub-table row. -/
def isNestedRow : TableRow → Bool
  | .nested _ _ _ _ _ => true
  | .plain _ _ => false

mutual

/-- Model of `createNestedTables(table, obj)`: the rows appended to
`table`, one per enumerable key of `obj` (`for (const key in obj)`), in
order.  Only arrays and objects have enumerable keys; an array's keys are
its element indices. -/
def createNestedTables : JSValue → List TableRow
  | .vobj entries => rowsOfEntries entries
  | .varr elems => rowsOfElems 0 elems
  | _ => []

/-- The loop body over an object's `key: value` entries: when the value is
a non-null object the row gets the `clickable-row` class, a recursively
built sub-table created hidden (`$("<table>").hide()`), and a click toggle
on its header; otherwise the row gets a plain data cell. -/
def rowsOfEntries : List (String × JSValue) → List TableRow
  | [] => []
  | (k, v) :: rest =>
    (if isNonNullObject v then
       TableRow.nested k (createNestedTables v) true true true
     else TableRow.plain k v) :: rowsOfEntries rest

/-- The same loop over an array's elements, keyed by index. -/
def rowsOfElems : Nat → List JSValue → List TableRow
  | _, [] => []
  | i, v :: rest =>
    (if isNonNullObject v then
       TableRow.nested (toString i) (createNestedTables v) true true true
     else TableRow.plain (toString i) v) :: rowsOfElems (i + 1) rest

end

/-- Number of `<table>` elements strictly below a row list — what
`table.find("table")` collects on the finished main table. -/
def nestedTableCount : List TableRow → Nat
  | [] => 0
  | .plain _ _ :: rest => nestedTableCount rest
  | .nested _ sub _ _ _ :: rest => 1 + nestedTableCount sub + nestedTableCount rest

/-- Model of the value returned by `createTable(jsonObject)`: the rendered
rows together with the "Open All" button, which is added exactly when
`table.find("table")` is non-empty. -/
structure TableContainer where
  openAllButton : Bool
  rows : List TableRow
  deriving Repr

/-- Model of `createTable(jsonObject)`. -/
def createTable (v : JSValue) : TableContainer :=
  let t := createNestedTables v
  { openAllButton := Nat.blt 0 (nestedTableCount t), rows := t }

/-! ### A model of `JSON.parse` (called by the utility on string input) -/

/-- Skip JSON whitespace. -/
def skipWs (cs : List Char) : List Char := cs.dropWhile isWsChar

/-- Parse the body of a JSON string literal after its opening quote,
returning the decoded string and the input after the closing quote.  An
escaped character stands for itself, with `\n`, `\t`, `\r` decoded (`\u`
escapes are outside the model). -/
def parseStringBody (fuel : Nat) (acc : List Char) (cs : List Char) :
    Option (String × List Char) :=
  match fuel, cs with
  | 0, _ => none
  | _, [] => none
  | fuel' + 1, c :: rest =>
    if c = '"' then some (String.mk acc.reverse, rest)
    else if c = '\\' then
      match rest with
      | [] => none
      | e :: rest2 =>
        let d :=
          if e = 'n' then '\n' else if e = 't' then '\t'
          else if e = 'r' then '\r' else e
        parseStringBody fuel' (d :: acc) rest2
    else parseStringBody fuel' (c :: acc) rest

/-- Parse a non-empty digit run as a natural number. -/
def parseNatNum (cs : List Char) : Option (Nat × List Char) :=
  let digits := cs.takeWhile Char.isDigit
  if digits = [] then none
  else some (digits.foldl (fun n c => 10 * n + (c.toNat - 48)) 0, cs.drop digits.length)

/-- Parse a JSON integer numeral (fractions and exponents are outside the
model). -/
def parseIntNum (cs : List Char) : Option (Int × List Char) :=
  match cs with
  | '-' :: rest => (parseNatNum rest).map (fun p => (-(p.1 : Int), p.2))
  | _ => (parseNatNum cs).map (fun p => ((p.1 : Int), p.2))

mutual

/-- Parse one JSON value; `fuel` bounds the recursion. -/
def parseJsonValue (fuel : Nat) (cs : List Char) : Option (JSValue × List Char) :=
  match fuel with
  | 0 => none
  | fuel' + 1 =>
    match skipWs cs with
    | [] => none
    | '"' :: rest =>
      (parseStringBody (rest.length + 1) [] rest).map (fun p => (.vstr p.1, p.2))
    | '{' :: rest => parseJsonMembers fuel' (skipWs rest) []
    | '[' :: rest => parseJsonElems fuel' (skipWs rest) []
    | 'n' :: 'u' :: 'l' :: 'l' :: rest => some (.vnull, rest)
    | 't' :: 'r' :: 'u' :: 'e' :: rest => some (.vbool true, rest)
    | 'f' :: 'a' :: 'l' :: 's' :: 'e' :: rest => some (.vbool false, rest)
    | other => (parseIntNum other).map (fun p => (.vnum p.1, p.2))

/-- Parse the members of a JSON object after its opening brace. -/
def parseJsonMembers (fuel : Nat) (cs : List Char)
    (acc : List (String × JSValue)) : Option (JSValue × List Char) :=
  match fuel with
  | 0 => none
  | fuel' + 1 =>
    match cs with
    | '}' :: rest => some (.vobj acc.reverse, rest)
    | '"' :: rest =>
      match parseStringBody (rest.length + 1) [] rest with
      | none => none
      | some (k, rest2) =>
        match skipWs rest2 with
        | ':' :: rest3 =>
          match parseJsonValue fuel' rest3 with
          | none => none
          | some (v, rest4) =>
            match skipWs rest4 with
            | ',' :: rest5 => parseJsonMembers fuel' (skipWs rest5) ((k, v) :: acc)
            | '}' :: rest5 => some (.vobj ((k, v) :: acc).reverse, rest5)
            | _ => none
        | _ => none
    | _ => none

/-- Parse the elements of a JSON array after its opening bracket. -/
def parseJsonElems (fuel : Nat) (cs : List Char) (acc : List JSValue) :
    Option (JSValue × List Char) :=
  match fuel with
  | 0 => none
  | fuel' + 1 =>
    match cs with
    | ']' :: rest => some (.varr acc.reverse, rest)
    | _ =>
      match parseJsonValue fuel' cs with
      | none => none
      | some (v, rest) =>
        match skipWs rest with
        | ',' :: rest2 => parseJsonElems fuel' (skipWs rest2) (v :: acc)
        | ']' :: rest2 => some (.varr (v :: acc).reverse, rest2)
        | _ => none

end

/-- Model of `JSON.parse`: one JSON value followed only by whitespace;
`none` models the exception. -/
def jsonParse (s : String) : Option JSValue :=
  match parseJsonValue (2 * s.data.length + 2) s.data with
  | some (v, rest) => if skipWs rest = [] then some v else none
  | none => none

/-- The string coercion `JSON.parse` applies to a non-string argument
(JavaScript `String(…)`). -/
def jsToString : JSValue → String
  | .vbool b => if b then "true" else "false"
  | .vnum n => toString n
  | .vstr s => s
  | .vnull => "null"
  | .vundef => "undefined"
  | .varr _ => ""
  | .vobj _ => "[object Object]"

/-- What an invocation of `createTableFromJson(jsonData, divRef)` did to
its surroundings: `divWrite` is the container passed to `divRef.html(…)`
when that call happened, and `errorReported` records the `catch` branch
(`console.error` plus the toastr "Error happened." message). -/
structure RunOutcome where
  divWrite : Option TableContainer
  errorReported : Bool
  deriving Repr

/-- Model of the body of `createTableFromJson`: the falsy guard, the
string trim followed by the second falsy guard, the object/string
dispatch, `JSON.parse` for string input, and the `try`/`catch` that
reports an error when the parse throws. -/
def createTableFromJson (jsonData : JSValue) : RunOutcome :=
  if jsFalsy jsonData then { divWrite := none, errorReported := false }
  else
    let trimmed :=
      match jsonData with
      | .vstr s => JSValue.vstr (trimStr s)
      | v => v
    if jsFalsy trimmed then { divWrite := none, errorReported := false }
    else if isNonNullObject trimmed then
      { divWrite := some (createTable trimmed), errorReported := false }
    else
      match jsonParse (jsToString trimmed) with
      | some v => { divWrite := some (createTable v), errorReported := false }
      | none => { divWrite := none, errorReported := true }

/-! ## Claims about the embedded utility -/

/-- A list of whitespace characters trims to the empty list. -/
theorem trimChars_eq_nil_of_all_ws (cs : List Char) (h : cs.all isWsChar = true) :
    trimChars cs = [] := by
  unfold trimChars
  have h1 : cs.dropWhile isWsChar = [] := by
    rw [List.dropWhile_eq_nil_iff]
    intro x hx
    exact (List.all_eq_true.mp h) x hx
  rw [h1]
  rfl

/-- Claim C9: on falsy input (null, undefined, `false`, `0`, the empty
string) or a string consisting only of whitespace, `createTableFromJson`
returns early: `divRef` is never written and no error is reported. -/
theorem c9_early_return_on_blank_input (v : JSValue)
    (h : jsFalsy v = true ∨ ∃ s, v = JSValue.vstr s ∧ s.data.all isWsChar = true) :
    createTableFromJson v = { divWrite := none, errorReported := false } := by
  rcases h with hf | ⟨s, rfl, hws⟩
  · simp [createTableFromJson, hf]
  · have ht : trimStr s = "" := by
      unfold trimStr
      rw [trimChars_eq_nil_of_all_ws s.data hws]
    by_cases h0 : jsFalsy (JSValue.vstr s) = true
    · simp [createTableFromJson, h0]
    · simp [createTableFromJson, h0, ht, jsFalsy]

/-- Witness for C9 at a three-space string. -/
theorem c9_witness :
    createTableFromJson (JSValue.vstr "   ") =
      { divWrite := none, errorReported := false } :=
  c9_early_return_on_blank_input (JSValue.vstr "   ")
    (Or.inr ⟨"   ", rfl, by decide⟩)

/-- `rowsOfEntries` emits one row per entry. -/
theorem rowsOfEntries_length (entries : List (String × JSValue)) :
    (rowsOfEntries entries).length = entries.length := by
  induction entries with
  | nil => simp [rowsOfEntries]
  | cons p rest ih =>
    cases p with
    | mk k v => simp [rowsOfEntries, ih]

/-- The shape of every emitted row: nested (hidden sub-table, clickable
row, header toggle) for a non-null object value, plain data cell
otherwise. -/
theorem rowsOfEntries_eq_map (entries : List (String × JSValue)) :
    rowsOfEntries entries = entries.map (fun p =>
      if isNonNullObject p.2 then
        TableRow.nested p.1 (createNestedTables p.2) true true true
      else TableRow.plain p.1 p.2) := by
  induction entries with
  | nil => simp [rowsOfEntries]
  | cons p rest ih =>
    cases p with
    | mk k v => simp [rowsOfEntries, ih]

/-- `rowsOfElems` emits one row per array element. -/
theorem rowsOfElems_length (i : Nat) (elems : List JSValue) :
    (rowsOfElems i elems).length = elems.length := by
  induction elems generalizing i with
  | nil => simp [rowsOfElems]
  | cons v rest ih => simp [rowsOfElems, ih]

/-- A row list contains a descendant table exactly when one of its rows is
a nested row. -/
theorem nestedTableCount_pos_iff (rows : List TableRow) :
    0 < nestedTableCount rows ↔ ∃ r ∈ rows, isNestedRow r = true := by
  induction rows with
  | nil => simp [nestedTableCount]
  | cons r rest ih =>
    cases r with
    | plain k v => simpa [nestedTableCount, isNestedRow] using ih
    | nested k sub hh cc tt =>
      apply iff_of_true
      · simp [nestedTableCount]
      · exact ⟨TableRow.nested k sub hh cc tt, List.mem_cons_self _ _, rfl⟩

/-- Claim C10: `createNestedTables` emits exactly one table row per
enumerable key of the input object — a nested row carrying a hidden
sub-table, the `clickable-row` class and a header toggle when the key's
value is a non-null object, and a plain data cell otherwise — and
`createTable` adds the "Open All" button if and only if at least one
nested sub-table was produced. -/
theorem c10_rows_per_key_and_open_all :
    (∀ entries : List (String × JSValue),
      createNestedTables (JSValue.vobj entries) = rowsOfEntries entries ∧
      (rowsOfEntries entries).length = entries.length ∧
      rowsOfEntries entries = entries.map (fun p =>
        if isNonNullObject p.2 then
          TableRow.nested p.1 (createNestedTables p.2) true true true
        else TableRow.plain p.1 p.2)) ∧
    (∀ v : JSValue,
      (createTable v).rows = createNestedTables v ∧
      ((createTable v).openAllButton = true ↔
        ∃ r ∈ (createTable v).rows, isNestedRow r = true)) := by
  constructor
  · intro entries
    exact ⟨rfl, rowsOfEntries_length entries, rowsOfEntries_eq_map entries⟩
  · intro v
    refine ⟨rfl, ?_⟩
    simpa [createTable] using nestedTableCount_pos_iff (createNestedTables v)

end Blog

